import Mathlib

/-!
Verification of the B3 settlement-price scraper core: the Extractor
(`download_b3_futures` in scraper.py), the Store Writer (`save_to_sqlite`
in scraper.py) and the shared contract-month decoder
(`parse_contract_month` in charting.py), shallowly embedded in Lean.
-/

namespace B3

/-! ## HTML document model

Only the structure the Extractor inspects is modelled: a document is the
list of its `table` elements in order; a table is its `tr` rows in order;
a row is the list of its `td` cells; a cell is its text content
(`get_text(strip=True)` is modelled by `stripText`). -/

/-- Whitespace stripping of a cell's text, as BeautifulSoup's
`get_text(strip=True)` applies it: leading and trailing whitespace
characters removed. -/
def stripText (s : String) : String :=
  String.mk (((s.toList.dropWhile Char.isWhitespace).reverse.dropWhile
                Char.isWhitespace).reverse)

abbrev Cell := String

abbrev Row := List Cell

abbrev Table := List Row

abbrev Doc := List Table

/-- `soup.find('table')`: the first table element of the document, or
`None` when the document has none. -/
def findTable (doc : Doc) : Option Table :=
  doc.head?

/-- Python-level failure outcomes the embedded pipeline can surface.
`attributeError` models Python's built-in `AttributeError` (raised e.g.
by `None.find_all(...)`); `fetchError` and `parseError` are the
structured error classes named by the specification's taxonomy (no class
of either name exists anywhere in the source). -/
inductive PyError where
  | attributeError
  | parseError
  | fetchError
  deriving DecidableEq

/-! ## Settlement records (scraper.py, `download_b3_futures`) -/

/-- One row of the `data` list built inside `download_b3_futures`
(scraper.py lines 34-41).  `commodity` is `Option String` because the
Python variable `current_commodity` is initialised to `None` and the
emitted dict stores it as-is. -/
structure SettlementRecord where
  commodity : Option String
  contract_month : String
  previous_price : String
  current_price : String
  variation : String
  settlement_value : String
  deriving DecidableEq, Inhabited

/-- One row of the final DataFrame: a settlement record plus the two
batch-level timestamp columns added at scraper.py lines 45-46. -/
structure StampedRecord extends SettlementRecord where
  download_date : String
  download_time : String
  deriving DecidableEq, Inhabited

/-- Adding the `download_date` / `download_time` columns to one row. -/
def stamp (date time : String) (r : SettlementRecord) : StampedRecord :=
  { toSettlementRecord := r, download_date := date, download_time := time }

/-- The carry-forward update of scraper.py lines 24 and 31-32: read the
row's cell 0 text (stripped); if it is non-empty it becomes the new
`current_commodity`, otherwise the previous value is kept. -/
def carryStep (cur : Option String) (row : Row) : Option String :=
  if stripText (row.getD 0 "") ≠ "" then some (stripText (row.getD 0 "")) else cur

/-- The row loop of `download_b3_futures` (scraper.py lines 20-41):
rows with exactly 6 cells each append one record whose commodity is the
carry-forward value; all other rows are skipped. -/
def extractRows (cur : Option String) : List Row → List SettlementRecord
  | [] => []
  | row :: rest =>
    if row.length = 6 then
      let cur' := carryStep cur row
      { commodity := cur',
        contract_month := stripText (row.getD 1 ""),
        previous_price := stripText (row.getD 2 ""),
        current_price := stripText (row.getD 3 ""),
        variation := stripText (row.getD 4 ""),
        settlement_value := stripText (row.getD 5 "") } :: extractRows cur' rest
    else
      extractRows cur rest

/-- The rows the loop emits a record for: exactly those with 6 cells
(the `len(cells) == 6` test at scraper.py line 23). -/
def qualifyingRows (rows : List Row) : List Row :=
  rows.filter (fun row => decide (row.length = 6))

/-- The commodity contribution of one row, read off the row itself: its
stripped cell-0 text when non-empty, nothing otherwise. -/
def cell0Value (row : Row) : Option String :=
  if stripText (row.getD 0 "") ≠ "" then some (stripText (row.getD 0 "")) else none

/-- The most recently seen non-empty (stripped) cell-0 text of a list
of rows, in row order — the declarative reading of the page convention
the carry-forward replicates. -/
def lastNonEmptyCell0 (rows : List Row) : Option String :=
  (rows.filterMap cell0Value).getLast?

/-- `download_b3_futures` (scraper.py lines 7-48), with the fetched
document and the two wall-clock reads (lines 45 and 46) passed
explicitly.  When the document has no table, `soup.find('table')`
returns `None` and `table.find_all('tr')` raises `AttributeError`;
otherwise the header row is dropped, the remaining rows are folded into
records and every record is stamped with the batch timestamp. -/
def download_b3_futures (doc : Doc) (date time : String) :
    Except PyError (List StampedRecord) :=
  match findTable doc with
  | none => .error .attributeError
  | some table =>
    let recs := extractRows none (table.drop 1)
    .ok (recs.map (stamp date time))

/-- The six data-column names, in the dict insertion order of
scraper.py lines 34-41. -/
def settlement_columns : List String :=
  ["Commodity", "Contract_Month", "Previous_Price", "Current_Price",
   "Variation", "Settlement_Value"]

/-- Column list of `pd.DataFrame(data)` (scraper.py line 43): the six
dict keys when `data` is non-empty, and **no columns at all** when
`data` is the empty list. -/
def dataFrameColumns (data : List SettlementRecord) : List String :=
  if data.isEmpty then [] else settlement_columns

/-- The column list of the DataFrame returned by `download_b3_futures`:
the columns of `pd.DataFrame(data)` followed by the two timestamp
columns added at scraper.py lines 45-46 (a scalar assignment to an
empty DataFrame still creates the column). -/
def download_b3_futures_columns (doc : Doc) : Except PyError (List String) :=
  match findTable doc with
  | none => .error .attributeError
  | some table =>
    .ok (dataFrameColumns (extractRows none (table.drop 1)) ++
         ["download_date", "download_time"])

/-- The full eight-column list the specification's §6 prescribes for the
persisted `all_futures` table. -/
def full_columns : List String :=
  settlement_columns ++ ["download_date", "download_time"]

/-! ## Contract-month decoder (charting.py, `parse_contract_month`) -/

/-- The fixed `month_codes` dictionary of charting.py lines 57-70:
F..Z mapped to 1..12, everything else absent (`dict.get` then yields
`None`). -/
def month_codes (c : Char) : Option Nat :=
  match c with
  | 'F' => some 1
  | 'G' => some 2
  | 'H' => some 3
  | 'J' => some 4
  | 'K' => some 5
  | 'M' => some 6
  | 'N' => some 7
  | 'Q' => some 8
  | 'U' => some 9
  | 'V' => some 10
  | 'X' => some 11
  | 'Z' => some 12
  | _ => none

/-- Value of a non-empty all-digit character list, `none` otherwise. -/
def digitsVal (l : List Char) : Option Nat :=
  match l with
  | [] => none
  | l =>
    if l.all Char.isDigit then
      some (l.foldl (fun acc c => 10 * acc + (c.toNat - 48)) 0)
    else
      none

/-- Python's built-in `int(str)` on a character list: surrounding
whitespace is stripped, an optional single `+`/`-` sign is consumed, and
the remainder must be one or more decimal digits (grouping underscores
between digits, accepted by Python, are not modelled; no claim touches
them).  `none` models the `ValueError` raised on anything else. -/
def pyInt (l : List Char) : Option Int :=
  let t := ((l.dropWhile Char.isWhitespace).reverse.dropWhile
              Char.isWhitespace).reverse
  match t with
  | [] => none
  | c :: rest =>
    if c = '+' then (digitsVal rest).map Int.ofNat
    else if c = '-' then (digitsVal rest).map (fun n => -(n : Int))
    else (digitsVal t).map Int.ofNat

/-- `parse_contract_month` (charting.py lines 56-89).  Codes shorter
than 2 characters give `(None, None)`; otherwise the month is the
`month_codes` lookup of the first character and, independently, the
year is `int(code[1:])` — shifted by 2000 exactly when `code[1:]` has
length 2 — or `None` when `int` raises `ValueError`. -/
def parse_contract_month (code : String) : Option Nat × Option Int :=
  match code.toList with
  | [] => (none, none)
  | [_] => (none, none)
  | month_code :: year_code =>
    let month := month_codes month_code
    let year :=
      match pyInt year_code with
      | some v => some (if year_code.length = 2 then 2000 + v else v)
      | none => none
    (month, year)

/-- Does a code match the spec's `<MonthLetter><2-digit-year>` pattern:
exactly one recognised month letter followed by exactly two ASCII
digits?  Stated from the specification's words (§4.2), to compare the
decoder against. -/
def specPatternMatch (code : String) : Bool :=
  match code.toList with
  | [c, d1, d2] => (month_codes c).isSome && d1.isDigit && d2.isDigit
  | _ => false

/-! ## Store Writer (scraper.py, `save_to_sqlite`) -/

/-- The observable state of the SQLite store: `none` when the
`all_futures` table does not exist, `some rows` when it holds `rows`. -/
abbrev Store := Option (List StampedRecord)

/-- `save_to_sqlite` (scraper.py lines 50-62) as a function on the
store state: it executes `DROP TABLE IF EXISTS all_futures`, commits,
then `df.to_sql('all_futures', ..., if_exists='replace')` — so the
final state holds exactly the new batch, whatever was there before. -/
def save_to_sqlite (df : List StampedRecord) (_store : Store) : Store :=
  some df

/-- The durable store state right after scraper.py lines 54-55
(`cursor.execute("DROP TABLE IF EXISTS all_futures"); conn.commit()`):
the table is gone and that deletion is already committed, whatever the
prior state was and before any row of the batch has been written. -/
def save_to_sqlite_state_after_drop_commit (_store : Store) : Store :=
  none

/-- Equality of `Except` results is decidable when both component types
have decidable equality (used only to evaluate the model on concrete
inputs). -/
instance {ε α : Type} [DecidableEq ε] [DecidableEq α] : DecidableEq (Except ε α)
  | .error e, .error f =>
    if h : e = f then .isTrue (by rw [h])
    else .isFalse (fun hh => h (Except.error.inj hh))
  | .error _, .ok _ => .isFalse (fun hh => Except.noConfusion hh)
  | .ok _, .error _ => .isFalse (fun hh => Except.noConfusion hh)
  | .ok a, .ok b =>
    if h : a = b then .isTrue (by rw [h])
    else .isFalse (fun hh => h (Except.ok.inj hh))

/-! ## Concrete inputs used to evaluate the model -/

/-- The spec's carry-forward example (§8): three qualifying rows, the
commodity cell filled only on the first. -/
def exampleRows : List Row :=
  [["DI1", "F25", "100", "101", "1", "101"],
   ["", "G25", "100", "101", "1", "101"],
   ["", "H25", "100", "101", "1", "101"]]

/-- A document holding one table: a header row followed by
`exampleRows`. -/
def sampleTable : Table :=
  [] :: exampleRows

def sampleDoc : Doc :=
  [sampleTable]

/-- The batch `download_b3_futures` produces on `sampleDoc` when the
clock reads 2024-01-02, 10:00:00. -/
def sampleBatch : List StampedRecord :=
  [{ commodity := some "DI1", contract_month := "F25", previous_price := "100",
     current_price := "101", variation := "1", settlement_value := "101",
     download_date := "2024-01-02", download_time := "10:00:00" },
   { commodity := some "DI1", contract_month := "G25", previous_price := "100",
     current_price := "101", variation := "1", settlement_value := "101",
     download_date := "2024-01-02", download_time := "10:00:00" },
   { commodity := some "DI1", contract_month := "H25", previous_price := "100",
     current_price := "101", variation := "1", settlement_value := "101",
     download_date := "2024-01-02", download_time := "10:00:00" }]

/-- A fetched document with no `table` element at all. -/
def noTableDoc : Doc :=
  []

/-- A document whose table's first (and only) qualifying row has an
empty commodity cell. -/
def emptyCommodityDoc : Doc :=
  [[[], ["", "G25", "1", "2", "3", "4"]]]

/-- The batch extracted from `emptyCommodityDoc`: a single record whose
commodity is `None`. -/
def emptyCommodityBatch : List StampedRecord :=
  [{ commodity := none, contract_month := "G25", previous_price := "1",
     current_price := "2", variation := "3", settlement_value := "4",
     download_date := "2024-01-02", download_time := "10:00:00" }]

/-- A document whose table has a header row and one separator row of a
single cell: zero qualifying rows. -/
def noQualifyingDoc : Doc :=
  [[[], ["sep"]]]

/-- A row persisted by an earlier Store Writer call. -/
def rOld : StampedRecord :=
  { commodity := some "DI1", contract_month := "F25", previous_price := "100",
    current_price := "101", variation := "1", settlement_value := "101",
    download_date := "2024-01-01", download_time := "09:00:00" }

/-- A row of a newly scraped batch. -/
def rNew : StampedRecord :=
  { commodity := some "DI1", contract_month := "G25", previous_price := "101",
    current_price := "102", variation := "1", settlement_value := "102",
    download_date := "2024-01-02", download_time := "10:00:00" }

/-! ## Helper lemmas -/

lemma isDigit_not_whitespace {c : Char} (h : c.isDigit = true) :
    c.isWhitespace = false := by
  rcases hw : c.isWhitespace with _ | _
  · rfl
  · exfalso
    simp [Char.isWhitespace] at hw
    rcases hw with ((h1 | h1) | h1) | h1 <;> subst h1 <;> exact absurd h (by decide)

lemma isDigit_ne_plus {c : Char} (h : c.isDigit = true) : c ≠ '+' := by
  intro h'
  subst h'
  exact absurd h (by decide)

lemma isDigit_ne_minus {c : Char} (h : c.isDigit = true) : c ≠ '-' := by
  intro h'
  subst h'
  exact absurd h (by decide)

lemma isDigit_toNat_bounds {c : Char} (h : c.isDigit = true) :
    48 ≤ c.toNat ∧ c.toNat ≤ 57 := by
  simp [Char.isDigit] at h
  obtain ⟨h1, h2⟩ := h
  rw [UInt32.le_def, BitVec.le_def] at h1 h2
  exact ⟨h1, h2⟩

lemma digitsVal_pair {d1 d2 : Char} (h1 : d1.isDigit = true) (h2 : d2.isDigit = true) :
    digitsVal [d1, d2] = some (10 * (d1.toNat - 48) + (d2.toNat - 48)) := by
  simp [digitsVal, h1, h2]

lemma pyInt_pair {d1 d2 : Char} (h1 : d1.isDigit = true) (h2 : d2.isDigit = true) :
    pyInt [d1, d2] = some ((10 * (d1.toNat - 48) + (d2.toNat - 48) : Nat) : Int) := by
  simp [pyInt, List.dropWhile, isDigit_not_whitespace h1, isDigit_not_whitespace h2,
        isDigit_ne_plus h1, isDigit_ne_minus h1, digitsVal_pair h1 h2]

lemma digitsVal_triple {d1 d2 d3 : Char} (h1 : d1.isDigit = true)
    (h2 : d2.isDigit = true) (h3 : d3.isDigit = true) :
    digitsVal [d1, d2, d3] =
      some (10 * (10 * (d1.toNat - 48) + (d2.toNat - 48)) + (d3.toNat - 48)) := by
  simp [digitsVal, h1, h2, h3]

lemma pyInt_triple {d1 d2 d3 : Char} (h1 : d1.isDigit = true)
    (h2 : d2.isDigit = true) (h3 : d3.isDigit = true) :
    pyInt [d1, d2, d3] =
      some ((10 * (10 * (d1.toNat - 48) + (d2.toNat - 48)) + (d3.toNat - 48) : Nat) : Int) := by
  simp [pyInt, List.dropWhile, isDigit_not_whitespace h1, isDigit_not_whitespace h2,
        isDigit_not_whitespace h3, isDigit_ne_plus h1, isDigit_ne_minus h1,
        digitsVal_triple h1 h2 h3]

lemma extract_getD_commodity :
    ∀ (rows : List Row) (cur : Option String) (n : Nat),
      n < (extractRows cur rows).length →
      ((extractRows cur rows).getD n default).commodity =
        ((qualifyingRows rows).take (n + 1)).foldl carryStep cur := by
  intro rows
  induction rows with
  | nil =>
    intro cur n h
    simp [extractRows] at h
  | cons row rest ih =>
    intro cur n h
    by_cases h6 : row.length = 6
    · cases n with
      | zero => simp [extractRows, h6, qualifyingRows]
      | succ m =>
        have h' : m < (extractRows (carryStep cur row) rest).length := by
          simp [extractRows, h6] at h
          omega
        have hm := ih (carryStep cur row) m h'
        simpa [extractRows, h6, qualifyingRows] using hm
    · have h' : n < (extractRows cur rest).length := by
        simpa [extractRows, h6] using h
      simpa [extractRows, h6, qualifyingRows] using ih cur n h'

lemma carryStep_eq_elim (cur : Option String) (row : Row) :
    carryStep cur row = (cell0Value row).elim cur some := by
  unfold carryStep cell0Value
  split_ifs with h <;> simp

lemma foldl_carryStep_eq (rows : List Row) :
    ∀ cur, rows.foldl carryStep cur = (lastNonEmptyCell0 rows).elim cur some := by
  induction rows with
  | nil =>
    intro cur
    simp [lastNonEmptyCell0]
  | cons row rest ih =>
    intro cur
    rw [List.foldl_cons, ih]
    rcases hc : cell0Value row with _ | c
    · simp [lastNonEmptyCell0, List.filterMap_cons, hc, carryStep_eq_elim]
    · simp only [lastNonEmptyCell0, List.filterMap_cons, hc]
      rcases hl : rest.filterMap cell0Value with _ | ⟨d, l⟩
      · simp [carryStep_eq_elim, hc]
      · have hs : (d :: l).getLast?.isSome := by simp
        obtain ⟨e, he⟩ := Option.isSome_iff_exists.mp hs
        simp [he]

lemma foldl_carryStep_ok (l : List Row) :
    ∀ cur : Option String, (cur = none ∨ ∃ s, cur = some s ∧ s ≠ "") →
      (l.foldl carryStep cur = none ∨ ∃ s, l.foldl carryStep cur = some s ∧ s ≠ "") := by
  induction l with
  | nil =>
    intro cur hp
    simpa using hp
  | cons row rest ih =>
    intro cur hp
    rw [List.foldl_cons]
    apply ih
    unfold carryStep
    split_ifs with h
    · exact Or.inr ⟨_, rfl, h⟩
    · exact hp

/-! ## Claim theorems -/

/-- Claim C1: the code contradicts the spec's append-only obligation.
Evaluating `save_to_sqlite` on a store that already holds `rOld` with
a new batch `[rNew]` leaves a store holding exactly the new batch: the
previously persisted row `rOld` is gone, so a Store Writer call is a
destructive replace, not a pure append. -/
theorem save_to_sqlite_discards_prior_rows :
    save_to_sqlite [rNew] (some [rOld]) = some [rNew] ∧
    rOld ∉ ((save_to_sqlite [rNew] (some [rOld])).getD []) :=
  ⟨rfl, by decide⟩

/-- Claim C2: the code contradicts the spec's atomicity requirement.
`save_to_sqlite` commits the `DROP TABLE IF EXISTS all_futures`
separately, before any row of the batch is written; the durable state
at that point is an absent table, not the prior state, so a failure
during the subsequent `to_sql` leaves the prior rows destroyed. -/
theorem save_to_sqlite_drop_committed_before_write :
    save_to_sqlite_state_after_drop_commit (some [rOld]) = none ∧
    save_to_sqlite_state_after_drop_commit (some [rOld]) ≠ some [rOld] :=
  ⟨rfl, by decide⟩

/-- Claim C3 counterexample: `"A25"` does not match the
`<MonthLetter><2-digit-year>` pattern, yet the decoder returns
`(None, 2025)` rather than `(None, None)` — the month and year
components fail independently. -/
theorem parse_contract_month_counterexample :
    specPatternMatch "A25" = false ∧
    parse_contract_month "A25" = (none, some 2025) ∧
    parse_contract_month "A25" ≠ (none, none) := by
  decide

/-- Claim C3 (amended): for a code of one recognised month letter and
two digits the decoder returns the table month (in 1..12) and the
four-digit year `2000 + value` (in 2000..2099); a string shorter than 2
characters returns `(None, None)`.  (For other non-matching strings the
two components are decoded independently and need not both be `None`.) -/
theorem parse_contract_month_amended (c d1 d2 : Char) (m : Nat) (s : String)
    (hm : month_codes c = some m) (h1 : d1.isDigit = true) (h2 : d2.isDigit = true)
    (hs : s.length < 2) :
    parse_contract_month (String.mk [c, d1, d2]) =
      (some m, some ((2000 : Int) + ((10 * (d1.toNat - 48) + (d2.toNat - 48) : Nat) : Int))) ∧
    (1 ≤ m ∧ m ≤ 12) ∧
    ((2000 : Int) ≤ 2000 + ((10 * (d1.toNat - 48) + (d2.toNat - 48) : Nat) : Int) ∧
      (2000 : Int) + ((10 * (d1.toNat - 48) + (d2.toNat - 48) : Nat) : Int) ≤ 2099) ∧
    parse_contract_month s = (none, none) := by
  refine ⟨?_, ?_, ?_, ?_⟩
  · have ht : (String.mk [c, d1, d2]).toList = [c, d1, d2] := rfl
    simp [parse_contract_month, ht, pyInt_pair h1 h2, hm]
  · unfold month_codes at hm
    split at hm <;> simp_all <;> omega
  · have hb1 := isDigit_toNat_bounds h1
    have hb2 := isDigit_toNat_bounds h2
    constructor <;> [skip; skip] <;> push_cast <;> omega
  · have hlen : s.data.length < 2 := hs
    rcases hl : s.data with _ | ⟨a, _ | ⟨b, l⟩⟩
    · simp [parse_contract_month, hl]
    · simp [parse_contract_month, hl]
    · rw [hl] at hlen
      simp at hlen
      omega

/-- Claim C3 witness: the amended theorem applied at `"F25"` (month
letter `F`, digits `2`,`5`) and at the empty string. -/
theorem parse_contract_month_amended_witness :
    (parse_contract_month (String.mk ['F', '2', '5']) =
        (some 1, some ((2000 : Int) + ((10 * ('2'.toNat - 48) + ('5'.toNat - 48) : Nat) : Int))) ∧
      (1 ≤ 1 ∧ 1 ≤ 12) ∧
      ((2000 : Int) ≤ 2000 + ((10 * ('2'.toNat - 48) + ('5'.toNat - 48) : Nat) : Int) ∧
        (2000 : Int) + ((10 * ('2'.toNat - 48) + ('5'.toNat - 48) : Nat) : Int) ≤ 2099) ∧
      parse_contract_month "" = (none, none)) ∧
    parse_contract_month "F25" = (some 1, some 2025) :=
  ⟨parse_contract_month_amended 'F' '2' '5' 1 "" (by decide) (by decide) (by decide)
    (by decide), by decide⟩

/-- Claim C4 counterexample: the year part `"123"` consists of digits,
but the decoder returns it at face value (`123`), not `2000 + 123`:
the `2000 +` shift is applied only to year parts of exactly two
digits. -/
theorem parse_contract_month_rollover_counterexample :
    parse_contract_month "F123" = (some 1, some 123) ∧
    parse_contract_month "F123" ≠ (some 1, some 2123) := by
  decide

/-- Claim C4 (amended): for a year part of exactly two digits the
decoder always returns `2000 + value` with no century rollover (so
`"Z99"` decodes to year 2099, not 1999), whatever the month letter;
an all-digit year part of three digits is taken at face value. -/
theorem parse_contract_month_year_amended (c d1 d2 d3 : Char)
    (h1 : d1.isDigit = true) (h2 : d2.isDigit = true) (h3 : d3.isDigit = true) :
    (parse_contract_month (String.mk [c, d1, d2])).2 =
      some ((2000 : Int) + ((10 * (d1.toNat - 48) + (d2.toNat - 48) : Nat) : Int)) ∧
    (parse_contract_month (String.mk [c, d1, d2, d3])).2 =
      some ((10 * (10 * (d1.toNat - 48) + (d2.toNat - 48)) + (d3.toNat - 48) : Nat) : Int) := by
  constructor
  · have ht : (String.mk [c, d1, d2]).toList = [c, d1, d2] := rfl
    simp [parse_contract_month, ht, pyInt_pair h1 h2]
  · have ht : (String.mk [c, d1, d2, d3]).toList = [c, d1, d2, d3] := rfl
    simp [parse_contract_month, ht, pyInt_triple h1 h2 h3]

/-- Claim C4 witness: the amended theorem applied at `"Z99"` and
`"Z999"`: the two-digit year 99 becomes 2099 (no rollover to 1999),
the three-digit year 999 stays 999. -/
theorem parse_contract_month_year_amended_witness :
    ((parse_contract_month (String.mk ['Z', '9', '9'])).2 =
        some ((2000 : Int) + ((10 * ('9'.toNat - 48) + ('9'.toNat - 48) : Nat) : Int)) ∧
      (parse_contract_month (String.mk ['Z', '9', '9', '9'])).2 =
        some ((10 * (10 * ('9'.toNat - 48) + ('9'.toNat - 48)) + ('9'.toNat - 48) : Nat) : Int)) ∧
    (parse_contract_month "Z99").2 = some 2099 ∧
    (parse_contract_month "Z999").2 = some 999 :=
  ⟨parse_contract_month_year_amended 'Z' '9' '9' '9' (by decide) (by decide) (by decide),
    by decide⟩

/-- Claim C5: every emitted record's commodity equals the most recently
seen non-empty (stripped) cell-0 text among the qualifying rows up to
and including the record's own row — never a skipped row's own cell
value, since only qualifying rows participate. -/
theorem commodity_is_carried_forward (rows : List Row) (n : Nat)
    (h : n < (extractRows none rows).length) :
    ((extractRows none rows).getD n default).commodity =
      lastNonEmptyCell0 ((qualifyingRows rows).take (n + 1)) := by
  rw [extract_getD_commodity rows none n h, foldl_carryStep_eq]
  rcases hl : lastNonEmptyCell0 ((qualifyingRows rows).take (n + 1)) with _ | c <;> simp

/-- Claim C5 witness: on the spec's example rows
`[("DI1","F25"), ("","G25"), ("","H25")]` the third record's commodity
is the carry-forward value, which evaluates to `"DI1"`. -/
theorem commodity_is_carried_forward_witness :
    2 < (extractRows none exampleRows).length ∧
    ((extractRows none exampleRows).getD 2 default).commodity =
      lastNonEmptyCell0 ((qualifyingRows exampleRows).take 3) ∧
    lastNonEmptyCell0 ((qualifyingRows exampleRows).take 3) = some "DI1" :=
  ⟨by decide, commodity_is_carried_forward exampleRows 2 (by decide), by decide⟩

/-- Claim C6: all records emitted by one extraction call carry the
identical `(download_date, download_time)` pair. -/
theorem batch_timestamp_uniform (doc : Doc) (date time : String)
    (recs : List StampedRecord)
    (hok : download_b3_futures doc date time = .ok recs)
    (r1 r2 : StampedRecord) (h1 : r1 ∈ recs) (h2 : r2 ∈ recs) :
    r1.download_date = r2.download_date ∧ r1.download_time = r2.download_time := by
  cases doc with
  | nil => simp [download_b3_futures, findTable] at hok
  | cons table ds =>
    simp only [download_b3_futures, findTable, List.head?, Except.ok.injEq] at hok
    subst hok
    obtain ⟨a1, -, rfl⟩ := List.mem_map.mp h1
    obtain ⟨a2, -, rfl⟩ := List.mem_map.mp h2
    exact ⟨rfl, rfl⟩

/-- Claim C6 witness: the extraction of `sampleDoc` at clock
`(2024-01-02, 10:00:00)` yields `sampleBatch`, and its first and last
records carry equal timestamps. -/
theorem batch_timestamp_uniform_witness :
    download_b3_futures sampleDoc "2024-01-02" "10:00:00" = .ok sampleBatch ∧
    (sampleBatch.getD 0 default).download_date = (sampleBatch.getD 2 default).download_date ∧
    (sampleBatch.getD 0 default).download_time = (sampleBatch.getD 2 default).download_time :=
  ⟨rfl,
    batch_timestamp_uniform sampleDoc "2024-01-02" "10:00:00" sampleBatch rfl
      (sampleBatch.getD 0 default) (sampleBatch.getD 2 default) (by decide) (by decide)⟩

/-- Claim C7: processing the rows after the header in document order,
the Extractor emits exactly one record per row with exactly 6 cells and
nothing for any other row: the emitted records are in one-to-one,
order-preserving correspondence with the qualifying rows. -/
theorem extract_one_record_per_six_cell_row (cur : Option String) (rows : List Row) :
    (extractRows cur rows).length = (qualifyingRows rows).length ∧
    (extractRows cur rows).map (fun r => r.contract_month) =
      (qualifyingRows rows).map (fun row => stripText (row.getD 1 "")) := by
  induction rows generalizing cur with
  | nil => simp [extractRows, qualifyingRows]
  | cons row rest ih =>
    by_cases h6 : row.length = 6
    · obtain ⟨hl, hm⟩ := ih (carryStep cur row)
      simp [extractRows, qualifyingRows, h6, hl, hm]
    · obtain ⟨hl, hm⟩ := ih cur
      simp [extractRows, qualifyingRows, h6, hl, hm]

/-- Claim C8 counterexample: on a document with no table element the
extraction fails with the `AttributeError` raised by calling
`find_all` on `None` — not with the structured `ParseError` the claim
names (no such error class exists in the code). -/
theorem download_no_table_counterexample :
    download_b3_futures noTableDoc "2024-01-02" "10:00:00" ≠
      Except.error PyError.parseError ∧
    download_b3_futures noTableDoc "2024-01-02" "10:00:00" =
      Except.error PyError.attributeError := by
  decide

/-- Claim C8 (amended): if the fetched document contains no table
element, extraction fails — with an unhandled `AttributeError` rather
than a structured `ParseError` — and in particular never returns a
(partial or garbage) row list. -/
theorem download_without_table_amended (doc : Doc) (date time : String)
    (h : findTable doc = none) :
    download_b3_futures doc date time = .error .attributeError ∧
    ∀ recs : List StampedRecord, download_b3_futures doc date time ≠ .ok recs := by
  constructor
  · simp [download_b3_futures, h]
  · intro recs
    simp [download_b3_futures, h]

/-- Claim C8 witness: the amended theorem applied to the empty
document. -/
theorem download_without_table_amended_witness :
    findTable noTableDoc = none ∧
    download_b3_futures noTableDoc "2024-01-02" "10:00:00" =
      .error .attributeError :=
  ⟨rfl, (download_without_table_amended noTableDoc "2024-01-02" "10:00:00" rfl).1⟩

/-- Claim C9 counterexample: on a table whose only qualifying row has
an empty commodity cell, the emitted record's commodity is `None`
(the initial `current_commodity`), not a non-empty string. -/
theorem extractor_null_commodity_counterexample :
    download_b3_futures emptyCommodityDoc "2024-01-02" "10:00:00" =
      .ok emptyCommodityBatch ∧
    (emptyCommodityBatch.getD 0 default).commodity = none := by
  decide

/-- Claim C9 (amended): an emitted record's commodity is never the
empty string — it is a non-empty string whenever some qualifying row up
to and including the record's own had a non-empty commodity cell, and
`None` (a NULL, as in the counterexample) before any such row. -/
theorem extractor_commodity_never_empty_string (rows : List Row) (n : Nat)
    (h : n < (extractRows none rows).length) :
    ((extractRows none rows).getD n default).commodity ≠ some "" := by
  rw [extract_getD_commodity rows none n h]
  rcases foldl_carryStep_ok _ none (Or.inl rfl) with h0 | ⟨s, hs, hne⟩
  · rw [h0]
    exact fun hh => Option.noConfusion hh
  · rw [hs]
    intro hh
    exact hne (Option.some.inj hh)

/-- Claim C9 witness: the amended theorem applied to the example rows
at index 0. -/
theorem extractor_commodity_never_empty_string_witness :
    0 < (extractRows none exampleRows).length ∧
    ((extractRows none exampleRows).getD 0 default).commodity ≠ some "" :=
  ⟨by decide, extractor_commodity_never_empty_string exampleRows 0 (by decide)⟩

/-- Claim C10 counterexample: on a document whose table yields zero
qualifying rows, `pd.DataFrame([])` has no columns, so the returned
frame (and hence the persisted table) has only the two timestamp
columns — `Commodity` and the other five data columns are missing. -/
theorem download_columns_counterexample :
    download_b3_futures_columns noQualifyingDoc =
      .ok ["download_date", "download_time"] ∧
    "Commodity" ∉ (["download_date", "download_time"] : List String) ∧
    (["download_date", "download_time"] : List String) ≠ full_columns := by
  refine ⟨rfl, by decide, by decide⟩

/-- Claim C10 (amended): when the located table yields at least one
qualifying row the returned frame has exactly the eight columns
`{Commodity, Contract_Month, Previous_Price, Current_Price, Variation,
Settlement_Value, download_date, download_time}`; when it yields zero
qualifying rows the frame has only the two timestamp columns. -/
theorem download_columns_amended (doc : Doc) (table : Table)
    (ht : findTable doc = some table) :
    (extractRows none (table.drop 1) ≠ [] →
      download_b3_futures_columns doc = .ok full_columns) ∧
    (extractRows none (table.drop 1) = [] →
      download_b3_futures_columns doc = .ok ["download_date", "download_time"]) := by
  constructor <;> intro h <;> rw [List.drop_one] at h <;>
    simp [download_b3_futures_columns, ht, dataFrameColumns, full_columns,
          settlement_columns, h, List.isEmpty_iff]

/-- Claim C10 witness: the amended theorem applied to `sampleDoc`,
whose table yields three records, giving the full eight-column set. -/
theorem download_columns_amended_witness :
    findTable sampleDoc = some sampleTable ∧
    extractRows none (sampleTable.drop 1) ≠ [] ∧
    download_b3_futures_columns sampleDoc = .ok full_columns :=
  ⟨rfl, by decide, (download_columns_amended sampleDoc sampleTable rfl).1 (by decide)⟩

end B3
